import Mathlib

/-!
Shallow embedding of the Commentia room service
(`packages/backend/src/services/room-service.ts`) and the Lambda error
handler (`packages/backend/src/utils/error-handler.ts`), together with
the shared data types (`packages/shared/src/index.ts`).

DynamoDB is modelled as an in-memory list of room items keyed by
`roomId` (the table key is `PK = ROOM#roomId`, `SK = METADATA`, so the
`roomId` is the key).  Nondeterministic inputs of the TypeScript code
(`Date.now`, `Math.random`) are passed explicitly as parameters.
Thrown exceptions are modelled with `Except`.
-/

deriving instance DecidableEq for Except

namespace Commentia

/-- `status: 'active' | 'closed'` from the shared `Room` type. -/
inductive RoomStatus where
  | active
  | closed
  deriving DecidableEq

/-- Shared `RoomSettings` interface. -/
structure RoomSettings where
  maxCommentsPerUser : Nat
  maxLikesPerUser : Nat
  commentMaxLength : Nat
  deriving DecidableEq

/-- TypeScript `Partial<RoomSettings>`: each field may be absent. -/
structure SettingsOverride where
  maxCommentsPerUser : Option Nat := none
  maxLikesPerUser : Option Nat := none
  commentMaxLength : Option Nat := none
  deriving DecidableEq

/-- Shared `RoomItem` interface (the DynamoDB item; `PK`/`SK` are
determined by `roomId` and are left implicit).  `closedAt` is the
attribute added dynamically by the `closeRoom` update. -/
structure RoomItem where
  roomId : String
  roomCode : String
  hostId : String
  createdAt : String
  status : RoomStatus
  settings : RoomSettings
  ttl : Nat
  closedAt : Option String := none
  deriving DecidableEq

/-- Shared `Room` interface (the API-facing shape). -/
structure Room where
  roomId : String
  roomCode : String
  hostId : String
  createdAt : String
  status : RoomStatus
  settings : RoomSettings
  deriving DecidableEq

/-- The errors thrown by the service layer.  `CommentiaError` carries
`message`, `statusCode` and `code`; the subclasses `ValidationError`
and `NotFoundError` are distinguished constructors because the code
tests `error instanceof NotFoundError`. -/
inductive DomainError where
  | commentia (message : String) (statusCode : Nat) (code : String)
  | validation (message : String)
  | notFound (resource : String)
  deriving DecidableEq

/-- `statusCode` field of the error (`ValidationError` is 400,
`NotFoundError` is 404). -/
def DomainError.statusCode : DomainError → Nat
  | .commentia _ s _ => s
  | .validation _ => 400
  | .notFound _ => 404

/-- `code` field of the error. -/
def DomainError.code : DomainError → String
  | .commentia _ _ c => c
  | .validation _ => "VALIDATION_ERROR"
  | .notFound _ => "NOT_FOUND"

/-- `message` field of the error (`NotFoundError` formats
`resource + " not found"`). -/
def DomainError.message : DomainError → String
  | .commentia m _ _ => m
  | .validation m => m
  | .notFound r => r ++ " not found"

/-- The rooms table: a list of items, keyed by `roomId`. -/
abbrev Store := List RoomItem

/-- Model of JavaScript `String.prototype.toUpperCase` on the ASCII
strings the service handles. -/
def jsToUpper (s : String) : String := ⟨s.data.map Char.toUpper⟩

/-- Model of JavaScript `String.prototype.trim`: strip leading and
trailing whitespace. -/
def jsTrim (s : String) : String :=
  ⟨((s.data.dropWhile Char.isWhitespace).reverse.dropWhile Char.isWhitespace).reverse⟩

/-- The 32-character alphabet of `generateRoomCode`
(`1-9` and `A-Z` minus `0`, `O`, `I`, `L`). -/
def roomCodeChars : List Char := "123456789ABCDEFGHJKMNPQRSTUVWXYZ".data

theorem roomCodeChars_length : roomCodeChars.length = 32 := by decide

/-- `generateRoomCode`: six independent draws
`chars.charAt(Math.floor(Math.random() * chars.length))`; the six
random draws are the explicit argument `rand`. -/
def generateRoomCode (rand : Fin 6 → Fin 32) : String :=
  ⟨List.ofFn fun i => roomCodeChars.get (Fin.cast roomCodeChars_length.symm (rand i))⟩

/-- `convertToRoom`: project a `RoomItem` to the API `Room` shape. -/
def convertToRoom (roomItem : RoomItem) : Room :=
  { roomId := roomItem.roomId
    roomCode := roomItem.roomCode
    hostId := roomItem.hostId
    createdAt := roomItem.createdAt
    status := roomItem.status
    settings := roomItem.settings }

/-- The key predicate: does the item sit under `PK = ROOM#roomId`? -/
def idMatch (roomId : String) (r : RoomItem) : Bool :=
  decide (r.roomId = roomId)

/-- Key lookup in the rooms table (the `GetCommand` on
`PK = ROOM#roomId`, `SK = METADATA`). -/
def lookupRoom (st : Store) (roomId : String) : Option RoomItem :=
  st.find? (idMatch roomId)

/-- The `FilterExpression` of the `getRoomByCode` scan:
`roomCode = :roomCode AND #status = :status` with the query code
uppercased and the status fixed to `active`. -/
def codeMatch (roomCode : String) (r : RoomItem) : Bool :=
  decide (r.roomCode = jsToUpper roomCode ∧ r.status = RoomStatus.active)

/-- `getRoom(roomId)`: validation, key lookup, closed-room check. -/
def getRoom (st : Store) (roomId : String) : Except DomainError Room :=
  if roomId = "" then
    .error (.validation "Room ID is required")
  else
    match lookupRoom st roomId with
    | none => .error (.notFound "Room")
    | some roomItem =>
      if roomItem.status = RoomStatus.closed then
        .error (.commentia "Room is closed" 410 "ROOM_CLOSED")
      else
        .ok (convertToRoom roomItem)

/-- `getRoomByCode(roomCode)`: length validation, then a table scan
filtered by `roomCode = :roomCode AND #status = :status` with the
query code uppercased, returning the first match. -/
def getRoomByCode (st : Store) (roomCode : String) : Except DomainError Room :=
  if roomCode = "" ∨ roomCode.length ≠ 6 then
    .error (.validation "Room code must be 6 characters")
  else
    match st.filter (codeMatch roomCode) with
    | [] => .error (.notFound "Room with provided code")
    | roomItem :: _ => .ok (convertToRoom roomItem)

/-- `validateRoomCodeUnique(roomCode)`: look the code up; a hit is a
409 `ROOM_CODE_EXISTS` conflict, a `NotFoundError` means the code is
unique, and any other error is rethrown. -/
def validateRoomCodeUnique (st : Store) (roomCode : String) : Except DomainError Unit :=
  match getRoomByCode st roomCode with
  | .ok _ => .error (.commentia "Room code already exists" 409 "ROOM_CODE_EXISTS")
  | .error e =>
    match e with
    | .notFound _ => .ok ()
    | e => .error e

/-- Default settings used by `createRoom`. -/
def defaultSettings : RoomSettings :=
  { maxCommentsPerUser := 50
    maxLikesPerUser := 100
    commentMaxLength := 500 }

/-- `{ ...defaultSettings, ...customSettings }`: spreading a
`Partial<RoomSettings>` keeps the default for every absent field. -/
def mergeSettings (customSettings : Option SettingsOverride) : RoomSettings :=
  match customSettings with
  | none => defaultSettings
  | some c =>
    { maxCommentsPerUser := c.maxCommentsPerUser.getD defaultSettings.maxCommentsPerUser
      maxLikesPerUser := c.maxLikesPerUser.getD defaultSettings.maxLikesPerUser
      commentMaxLength := c.commentMaxLength.getD defaultSettings.commentMaxLength }

/-- The `roomItem` literal `createRoom` builds before persisting:
trimmed host id, fresh code, `status: 'active'`, merged settings and a
24-hour (86400-second) TTL. -/
def newRoomItem (hostId : String) (customSettings : Option SettingsOverride)
    (roomId : String) (rand : Fin 6 → Fin 32) (createdAt : String) (nowSec : Nat) :
    RoomItem :=
  { roomId := roomId
    roomCode := generateRoomCode rand
    hostId := jsTrim hostId
    createdAt := createdAt
    status := RoomStatus.active
    settings := mergeSettings customSettings
    ttl := nowSec + 86400 }

/-- `createRoom(hostId, customSettings)`.  The generated `roomId`, the
six room-code draws, the `createdAt` timestamp and the current time in
seconds (for the TTL) are explicit parameters.  The `PutCommand` with
`ConditionExpression: attribute_not_exists(PK)` fails when the key is
already present; that failure surfaces as 409 `ROOM_EXISTS`. -/
def createRoom (st : Store) (hostId : String) (customSettings : Option SettingsOverride)
    (roomId : String) (rand : Fin 6 → Fin 32) (createdAt : String) (nowSec : Nat) :
    Except DomainError (Room × Store) :=
  if hostId = "" ∨ (jsTrim hostId).length = 0 then
    .error (.validation "Host ID is required")
  else
    match validateRoomCodeUnique st (generateRoomCode rand) with
    | .error e => .error e
    | .ok _ =>
      match lookupRoom st roomId with
      | some _ => .error (.commentia "Room already exists" 409 "ROOM_EXISTS")
      | none =>
        .ok (convertToRoom (newRoomItem hostId customSettings roomId rand createdAt nowSec),
          st ++ [newRoomItem hostId customSettings roomId rand createdAt nowSec])

/-- The effect of the `UpdateCommand` of `closeRoom` on one item:
`SET #status = :status, #closedAt = :closedAt` on the item stored
under the key, every other item untouched. -/
def closeUpdate (roomId closedAt : String) (r : RoomItem) : RoomItem :=
  if r.roomId = roomId then
    { r with status := RoomStatus.closed, closedAt := some closedAt }
  else r

/-- `closeRoom(roomId, hostId)`: validations, `getRoom` (existence,
closed check), host authorization, dead already-closed check, then the
conditional `UpdateCommand` setting `status` and `closedAt`. -/
def closeRoom (st : Store) (roomId hostId : String) (closedAt : String) :
    Except DomainError Store :=
  if roomId = "" then
    .error (.validation "Room ID is required")
  else if hostId = "" then
    .error (.validation "Host ID is required")
  else
    match getRoom st roomId with
    | .error e => .error e
    | .ok room =>
      if room.hostId ≠ hostId then
        .error (.commentia "Only room host can close the room" 403 "FORBIDDEN")
      else if room.status = RoomStatus.closed then
        .error (.commentia "Room is already closed" 409 "ROOM_ALREADY_CLOSED")
      else
        match lookupRoom st roomId with
        | none => .error (.commentia "Room not found or access denied" 404 "NOT_FOUND")
        | some r =>
          if r.hostId ≠ hostId then
            .error (.commentia "Room not found or access denied" 404 "NOT_FOUND")
          else
            .ok (st.map (closeUpdate roomId closedAt))

/-- The operations the room service exposes, with their
nondeterministic inputs made explicit. -/
inductive Op where
  | create (hostId : String) (customSettings : Option SettingsOverride)
      (roomId : String) (rand : Fin 6 → Fin 32) (createdAt : String) (nowSec : Nat)
  | get (roomId : String)
  | getByCode (roomCode : String)
  | close (roomId hostId closedAt : String)

/-- Whether an operation is the close operation. -/
def Op.isClose : Op → Bool
  | .close _ _ _ => true
  | _ => false

/-- Effect of one service call on the rooms table: reads leave it
unchanged, and a failed mutation leaves it unchanged. -/
def step (st : Store) : Op → Store
  | .create hostId cs roomId rand createdAt nowSec =>
    match createRoom st hostId cs roomId rand createdAt nowSec with
    | .ok (_, st2) => st2
    | .error _ => st
  | .get _ => st
  | .getByCode _ => st
  | .close roomId hostId closedAt =>
    match closeRoom st roomId hostId closedAt with
    | .ok st2 => st2
    | .error _ => st

/-- Status of the room stored under `roomId`, if any. -/
def statusOf (st : Store) (roomId : String) : Option RoomStatus :=
  (lookupRoom st roomId).map RoomItem.status

/-- Body of an error response (the object passed to
`JSON.stringify`). -/
structure ErrorBody where
  error : String
  message : String
  requestId : Option String
  deriving DecidableEq

/-- `APIGatewayProxyResult` as built by `createApiResponse`. -/
structure ApiResponse where
  statusCode : Nat
  headers : List (String × String)
  body : ErrorBody
  deriving DecidableEq

/-- `WebSocketResult` as built by `createWebSocketResponse` (the body
is optional). -/
structure WsResponse where
  statusCode : Nat
  headers : List (String × String)
  body : Option ErrorBody
  deriving DecidableEq

/-- A JavaScript error reaching the boundary: either a typed
`CommentiaError` (including its subclasses) or any other `Error` with
its `name`, `message` and `stack`. -/
inductive JsError where
  | domain (e : DomainError)
  | plain (name message stack : String)
  deriving DecidableEq

/-- The default headers `createApiResponse` attaches. -/
def defaultHeaders : List (String × String) :=
  [("Content-Type", "application/json"),
   ("Access-Control-Allow-Origin", "*"),
   ("Access-Control-Allow-Credentials", "true")]

/-- `createApiResponse(statusCode, body)` with no extra headers. -/
def createApiResponse (statusCode : Nat) (body : ErrorBody) : ApiResponse :=
  { statusCode := statusCode, headers := defaultHeaders, body := body }

/-- `createWebSocketResponse(statusCode, body)` with no extra
headers. -/
def createWebSocketResponse (statusCode : Nat) (body : Option ErrorBody) : WsResponse :=
  { statusCode := statusCode, headers := [], body := body }

/-- `createErrorResponse(error, requestId)`: a `CommentiaError` maps to
its own status, code and message; any other error maps to the fixed
500 `INTERNAL_ERROR` response. -/
def createErrorResponse (error : JsError) (requestId : Option String) : ApiResponse :=
  match error with
  | .domain e =>
    createApiResponse e.statusCode
      { error := e.code, message := e.message, requestId := requestId }
  | .plain _ _ _ =>
    createApiResponse 500
      { error := "INTERNAL_ERROR", message := "Internal server error", requestId := requestId }

/-- `createWebSocketErrorResponse(error, requestId)`. -/
def createWebSocketErrorResponse (error : JsError) (requestId : Option String) : WsResponse :=
  match error with
  | .domain e =>
    createWebSocketResponse e.statusCode
      (some { error := e.code, message := e.message, requestId := requestId })
  | .plain _ _ _ =>
    createWebSocketResponse 500
      (some { error := "INTERNAL_ERROR", message := "Internal server error", requestId := requestId })

/-! ### Concrete sample data used by witnesses -/

/-- A sample active room item. -/
def itemActive : RoomItem :=
  { roomId := "r1", roomCode := "AAAAAA", hostId := "h1", createdAt := "t0",
    status := RoomStatus.active, settings := defaultSettings, ttl := 86400 }

/-- The same room after closing. -/
def itemShut : RoomItem :=
  { roomId := "r1", roomCode := "AAAAAA", hostId := "h1", createdAt := "t0",
    status := RoomStatus.closed, settings := defaultSettings, ttl := 86400,
    closedAt := some "t1" }

/-- A second, unrelated active room item. -/
def itemOther : RoomItem :=
  { roomId := "r2", roomCode := "BBBBBB", hostId := "h2", createdAt := "t0",
    status := RoomStatus.active, settings := defaultSettings, ttl := 86400 }

/-! ### Helper lemmas -/

theorem generateRoomCode_length (rand : Fin 6 → Fin 32) :
    (generateRoomCode rand).length = 6 := by
  simp [generateRoomCode, String.length]

theorem generateRoomCode_ne_empty (rand : Fin 6 → Fin 32) :
    generateRoomCode rand ≠ "" := by
  intro h
  have := generateRoomCode_length rand
  rw [h] at this
  simp [String.length] at this

theorem generateRoomCode_mem (rand : Fin 6 → Fin 32) :
    ∀ c ∈ (generateRoomCode rand).data, c ∈ roomCodeChars := by
  intro c hc
  simp only [generateRoomCode, List.mem_ofFn, Set.mem_range] at hc
  obtain ⟨i, rfl⟩ := hc
  exact List.get_mem _ _ _

theorem roomCodeChars_upper : ∀ c ∈ roomCodeChars, c.toUpper = c := by decide

theorem jsToUpper_eq_self (s : String) (h : ∀ c ∈ s.data, Char.toUpper c = c) :
    jsToUpper s = s := by
  unfold jsToUpper
  rw [List.map_congr_left h]
  simp

theorem jsToUpper_generateRoomCode (rand : Fin 6 → Fin 32) :
    jsToUpper (generateRoomCode rand) = generateRoomCode rand :=
  jsToUpper_eq_self _ fun c hc => roomCodeChars_upper c (generateRoomCode_mem rand c hc)

theorem status_eq_active_of_ne_closed {s : RoomStatus} (h : s ≠ RoomStatus.closed) :
    s = RoomStatus.active := by
  cases s
  · rfl
  · exact absurd rfl h

theorem getRoom_eq_notFound (st : Store) (roomId : String) (h0 : roomId ≠ "")
    (h : lookupRoom st roomId = none) :
    getRoom st roomId = .error (.notFound "Room") := by
  simp [getRoom, h0, h]

theorem getRoom_eq_gone (st : Store) (roomId : String) (it : RoomItem) (h0 : roomId ≠ "")
    (h : lookupRoom st roomId = some it) (hc : it.status = RoomStatus.closed) :
    getRoom st roomId = .error (.commentia "Room is closed" 410 "ROOM_CLOSED") := by
  simp [getRoom, h0, h, hc]

theorem getRoom_eq_ok (st : Store) (roomId : String) (it : RoomItem) (h0 : roomId ≠ "")
    (h : lookupRoom st roomId = some it) (ha : it.status = RoomStatus.active) :
    getRoom st roomId = .ok (convertToRoom it) := by
  simp [getRoom, h0, h, ha]

theorem getRoom_ok_inv (st : Store) (roomId : String) (room : Room)
    (h : getRoom st roomId = .ok room) :
    roomId ≠ "" ∧ ∃ it, lookupRoom st roomId = some it ∧ it.status = RoomStatus.active ∧
      room = convertToRoom it := by
  unfold getRoom at h
  by_cases h0 : roomId = ""
  · rw [if_pos h0] at h
    exact absurd h (by simp)
  · rw [if_neg h0] at h
    refine ⟨h0, ?_⟩
    cases hl : lookupRoom st roomId with
    | none => simp [hl] at h
    | some it =>
      simp only [hl] at h
      by_cases hc : it.status = RoomStatus.closed
      · simp [hc] at h
      · simp only [if_neg hc] at h
        cases h
        exact ⟨it, rfl, status_eq_active_of_ne_closed hc, rfl⟩

theorem getRoomByCode_eq_validation (st : Store) (roomCode : String)
    (h : roomCode.length ≠ 6) :
    getRoomByCode st roomCode = .error (.validation "Room code must be 6 characters") := by
  simp [getRoomByCode, h]

theorem length_ne_six_of_empty : ("" : String).length = 0 := rfl

theorem getRoomByCode_eq_notFound (st : Store) (roomCode : String) (h6 : roomCode.length = 6)
    (hnone : ∀ r ∈ st, ¬(r.roomCode = jsToUpper roomCode ∧ r.status = RoomStatus.active)) :
    getRoomByCode st roomCode = .error (.notFound "Room with provided code") := by
  have hne : roomCode ≠ "" := by
    intro he
    rw [he] at h6
    simp [String.length] at h6
  have hfil : st.filter (codeMatch roomCode) = [] := by
    rw [List.filter_eq_nil_iff]
    intro a ha
    simp only [codeMatch, decide_eq_true_eq]
    exact hnone a ha
  unfold getRoomByCode
  rw [if_neg (by simp [hne, h6]), hfil]

theorem getRoomByCode_isOk (st : Store) (roomCode : String) (h6 : roomCode.length = 6)
    (hex : ∃ r ∈ st, r.roomCode = jsToUpper roomCode ∧ r.status = RoomStatus.active) :
    ∃ room, getRoomByCode st roomCode = .ok room := by
  have hne : roomCode ≠ "" := by
    intro he
    rw [he] at h6
    simp [String.length] at h6
  unfold getRoomByCode
  rw [if_neg (by simp [hne, h6])]
  cases hfil : st.filter (codeMatch roomCode) with
  | nil =>
    exfalso
    rw [List.filter_eq_nil_iff] at hfil
    obtain ⟨r, hr, hc, hs⟩ := hex
    exact hfil r hr (by simp [codeMatch, hc, hs])
  | cons it rest => exact ⟨convertToRoom it, rfl⟩

theorem getRoomByCode_ok_inv (st : Store) (roomCode : String) (room : Room)
    (h : getRoomByCode st roomCode = .ok room) :
    ∃ it ∈ st, it.status = RoomStatus.active ∧ it.roomCode = jsToUpper roomCode ∧
      room = convertToRoom it := by
  unfold getRoomByCode at h
  by_cases hg : roomCode = "" ∨ roomCode.length ≠ 6
  · rw [if_pos hg] at h
    exact absurd h (by simp)
  · rw [if_neg hg] at h
    cases hfil : st.filter (codeMatch roomCode) with
    | nil => rw [hfil] at h; exact absurd h (by simp)
    | cons it rest =>
      rw [hfil] at h
      cases h
      have hmem : it ∈ st.filter (codeMatch roomCode) := by
        rw [hfil]
        exact List.mem_cons_self _ _
      obtain ⟨hmem2, hp⟩ := List.mem_filter.mp hmem
      simp only [codeMatch, decide_eq_true_eq] at hp
      exact ⟨it, hmem2, hp.2, hp.1, rfl⟩

theorem validateRoomCodeUnique_eq_conflict (st : Store) (roomCode : String)
    (h6 : roomCode.length = 6)
    (hex : ∃ r ∈ st, r.roomCode = jsToUpper roomCode ∧ r.status = RoomStatus.active) :
    validateRoomCodeUnique st roomCode =
      .error (.commentia "Room code already exists" 409 "ROOM_CODE_EXISTS") := by
  obtain ⟨room, hok⟩ := getRoomByCode_isOk st roomCode h6 hex
  unfold validateRoomCodeUnique
  rw [hok]

theorem validateRoomCodeUnique_eq_ok (st : Store) (roomCode : String)
    (h6 : roomCode.length = 6)
    (hnone : ∀ r ∈ st, ¬(r.roomCode = jsToUpper roomCode ∧ r.status = RoomStatus.active)) :
    validateRoomCodeUnique st roomCode = .ok () := by
  unfold validateRoomCodeUnique
  rw [getRoomByCode_eq_notFound st roomCode h6 hnone]

theorem validateRoomCodeUnique_ok_inv (st : Store) (roomCode : String)
    (h : validateRoomCodeUnique st roomCode = .ok ()) :
    ∀ r ∈ st, ¬(r.roomCode = jsToUpper roomCode ∧ r.status = RoomStatus.active) := by
  intro r hr hp
  unfold validateRoomCodeUnique at h
  by_cases h6 : roomCode.length = 6
  · obtain ⟨room, hok⟩ := getRoomByCode_isOk st roomCode h6 ⟨r, hr, hp⟩
    rw [hok] at h
    exact absurd h (by simp)
  · rw [getRoomByCode_eq_validation st roomCode h6] at h
    exact absurd h (by simp)

theorem closeUpdate_roomId (roomId closedAt : String) (r : RoomItem) :
    (closeUpdate roomId closedAt r).roomId = r.roomId := by
  unfold closeUpdate
  split <;> rfl

theorem closeRoom_eq_notFound (st : Store) (roomId requesterId closedAt : String)
    (h1 : roomId ≠ "") (h2 : requesterId ≠ "") (h : lookupRoom st roomId = none) :
    closeRoom st roomId requesterId closedAt = .error (.notFound "Room") := by
  unfold closeRoom
  rw [if_neg h1, if_neg h2, getRoom_eq_notFound st roomId h1 h]

theorem closeRoom_eq_gone (st : Store) (roomId requesterId closedAt : String) (it : RoomItem)
    (h1 : roomId ≠ "") (h2 : requesterId ≠ "")
    (hl : lookupRoom st roomId = some it) (hc : it.status = RoomStatus.closed) :
    closeRoom st roomId requesterId closedAt =
      .error (.commentia "Room is closed" 410 "ROOM_CLOSED") := by
  unfold closeRoom
  rw [if_neg h1, if_neg h2, getRoom_eq_gone st roomId it h1 hl hc]

theorem closeRoom_eq_forbidden (st : Store) (roomId requesterId closedAt : String)
    (it : RoomItem) (h1 : roomId ≠ "") (h2 : requesterId ≠ "")
    (hl : lookupRoom st roomId = some it) (ha : it.status = RoomStatus.active)
    (hh : it.hostId ≠ requesterId) :
    closeRoom st roomId requesterId closedAt =
      .error (.commentia "Only room host can close the room" 403 "FORBIDDEN") := by
  unfold closeRoom
  rw [if_neg h1, if_neg h2, getRoom_eq_ok st roomId it h1 hl ha]
  have hh2 : (convertToRoom it).hostId ≠ requesterId := hh
  simp [hh2]

theorem closeRoom_ok_inv (st : Store) (roomId hostId closedAt : String) (st2 : Store)
    (h : closeRoom st roomId hostId closedAt = .ok st2) :
    (∃ it, lookupRoom st roomId = some it ∧ it.status = RoomStatus.active ∧
      it.hostId = hostId) ∧
    st2 = st.map (closeUpdate roomId closedAt) := by
  unfold closeRoom at h
  by_cases h1 : roomId = ""
  · rw [if_pos h1] at h
    exact absurd h (by simp)
  rw [if_neg h1] at h
  by_cases h2 : hostId = ""
  · rw [if_pos h2] at h
    exact absurd h (by simp)
  rw [if_neg h2] at h
  cases hg : getRoom st roomId with
  | error e => simp [hg] at h
  | ok room =>
    simp only [hg] at h
    obtain ⟨-, it, hl, ha, hroom⟩ := getRoom_ok_inv st roomId room hg
    subst hroom
    by_cases hh : (convertToRoom it).hostId ≠ hostId
    · simp [hh] at h
    · simp only [if_neg hh] at h
      have hs : ¬((convertToRoom it).status = RoomStatus.closed) := by
        have : (convertToRoom it).status = RoomStatus.active := ha
        rw [this]
        intro hcl
        cases hcl
      simp only [if_neg hs] at h
      simp only [hl] at h
      have hh3 : ¬(it.hostId ≠ hostId) := hh
      simp only [if_neg hh3] at h
      cases h
      exact ⟨⟨it, hl, ha, not_not.mp hh⟩, rfl⟩

theorem lookupRoom_append (st : Store) (it : RoomItem) (q : String) :
    lookupRoom (st ++ [it]) q = (lookupRoom st q).or (lookupRoom [it] q) := by
  unfold lookupRoom
  exact List.find?_append

theorem statusOf_append (st : Store) (it : RoomItem) (q : String) :
    statusOf (st ++ [it]) q =
      match lookupRoom st q with
      | some r => some r.status
      | none => if it.roomId = q then some it.status else none := by
  unfold statusOf
  rw [lookupRoom_append]
  cases hf : lookupRoom st q with
  | some r => rfl
  | none =>
    simp only [Option.or, Option.map]
    unfold lookupRoom
    by_cases hid : it.roomId = q
    · simp [List.find?, idMatch, hid]
    · simp [List.find?, idMatch, hid]

theorem statusOf_map_closeUpdate (st : Store) (roomId closedAt q : String) :
    statusOf (st.map (closeUpdate roomId closedAt)) q =
      (lookupRoom st q).map fun r => (closeUpdate roomId closedAt r).status := by
  unfold statusOf lookupRoom
  rw [List.find?_map]
  have hp : (idMatch q ∘ closeUpdate roomId closedAt) = idMatch q := by
    funext r
    simp [idMatch, Function.comp, closeUpdate_roomId]
  rw [hp, Option.map_map]
  rfl

theorem lookupRoom_mem_key (st : Store) (q : String) (r : RoomItem)
    (h : lookupRoom st q = some r) : r.roomId = q := by
  have := List.find?_some h
  simpa [idMatch] using this

/-! ### Claim theorems -/

/-- Claim C8: the boundary response builders map a typed
`CommentiaError` to its own `statusCode`, `code` and `message`, and
map every other error to the fixed 500 `INTERNAL_ERROR` response whose
body never depends on the underlying message or stack. -/
theorem errorResponse_spec (e : DomainError) (n m s : String) (requestId : Option String) :
    createErrorResponse (.plain n m s) requestId =
      { statusCode := 500, headers := defaultHeaders,
        body := { error := "INTERNAL_ERROR", message := "Internal server error",
                  requestId := requestId } } ∧
    createErrorResponse (.domain e) requestId =
      { statusCode := e.statusCode, headers := defaultHeaders,
        body := { error := e.code, message := e.message, requestId := requestId } } ∧
    createWebSocketErrorResponse (.plain n m s) requestId =
      { statusCode := 500, headers := [],
        body := some { error := "INTERNAL_ERROR", message := "Internal server error",
                       requestId := requestId } } ∧
    createWebSocketErrorResponse (.domain e) requestId =
      { statusCode := e.statusCode, headers := [],
        body := some { error := e.code, message := e.message, requestId := requestId } } :=
  ⟨rfl, rfl, rfl, rfl⟩

/-- Claim C5 counterexample: with the empty store no record exists for
the room id `""`, yet `getRoom` fails with a 400 `VALIDATION_ERROR`,
not with `NotFound`. -/
theorem getRoom_notFound_counterexample :
    lookupRoom ([] : Store) "" = none ∧
    getRoom ([] : Store) "" = .error (.validation "Room ID is required") ∧
    DomainError.code (.validation "Room ID is required") = "VALIDATION_ERROR" ∧
    DomainError.statusCode (.validation "Room ID is required") = 400 := by
  refine ⟨rfl, rfl, rfl, rfl⟩

/-- Claim C5 (amended): for every nonempty room id, `getRoom` fails
with `NotFound` when no record exists, fails with `Gone`
(410 `ROOM_CLOSED`) when the record is closed, and returns the room
when it is active; it never returns a closed room (for any id). -/
theorem getRoom_spec (st : Store) (roomId : String) :
    (roomId ≠ "" →
      (lookupRoom st roomId = none → getRoom st roomId = .error (.notFound "Room")) ∧
      (∀ it, lookupRoom st roomId = some it → it.status = RoomStatus.closed →
        getRoom st roomId = .error (.commentia "Room is closed" 410 "ROOM_CLOSED")) ∧
      (∀ it, lookupRoom st roomId = some it → it.status = RoomStatus.active →
        getRoom st roomId = .ok (convertToRoom it))) ∧
    (∀ room, getRoom st roomId = .ok room → room.status ≠ RoomStatus.closed) := by
  constructor
  · intro h0
    refine ⟨fun h => ?_, fun it h hc => ?_, fun it h ha => ?_⟩
    · simp [getRoom, h0, h]
    · simp [getRoom, h0, h, hc]
    · simp [getRoom, h0, h, ha]
  · intro room h
    unfold getRoom at h
    by_cases h0 : roomId = ""
    · rw [if_pos h0] at h
      exact absurd h (by simp)
    · rw [if_neg h0] at h
      cases hl : lookupRoom st roomId with
      | none => simp [hl] at h
      | some it =>
        simp only [hl] at h
        by_cases hc : it.status = RoomStatus.closed
        · simp [hc] at h
        · simp only [if_neg hc] at h
          cases h
          exact hc

/-- Claim C6: `getRoomByCode` rejects every input whose length is not
6 with a `ValidationError`; for 6-character inputs it compares the
uppercased code against the codes of active rooms, failing with
`NotFound` when none matches, and any success returns an active room
whose stored code equals the uppercased input. -/
theorem getRoomByCode_spec (st : Store) (roomCode : String) :
    (roomCode.length ≠ 6 →
      getRoomByCode st roomCode = .error (.validation "Room code must be 6 characters")) ∧
    (roomCode.length = 6 →
      (∀ r ∈ st, ¬(r.roomCode = jsToUpper roomCode ∧ r.status = RoomStatus.active)) →
      getRoomByCode st roomCode = .error (.notFound "Room with provided code")) ∧
    (∀ room, getRoomByCode st roomCode = .ok room →
      ∃ it ∈ st, it.status = RoomStatus.active ∧ it.roomCode = jsToUpper roomCode ∧
        room = convertToRoom it) :=
  ⟨getRoomByCode_eq_validation st roomCode,
   getRoomByCode_eq_notFound st roomCode,
   getRoomByCode_ok_inv st roomCode⟩

/-- Claim C6 witness: a 2-character code is rejected, a fresh
6-character code is not found, and a lowercase code finds the room
stored under its uppercase form. -/
theorem getRoomByCode_spec_witness :
    getRoomByCode ([] : Store) "AB" =
      .error (.validation "Room code must be 6 characters") ∧
    getRoomByCode ([] : Store) "AAAAAA" =
      .error (.notFound "Room with provided code") ∧
    (∃ it ∈ [itemActive], it.status = RoomStatus.active ∧ it.roomCode = jsToUpper "aaaaaa" ∧
      convertToRoom itemActive = convertToRoom it) :=
  ⟨(getRoomByCode_spec [] "AB").1 (by decide),
   (getRoomByCode_spec [] "AAAAAA").2.1 (by decide) (by decide),
   (getRoomByCode_spec [itemActive] "aaaaaa").2.2 (convertToRoom itemActive) (by decide)⟩

/-- Inversion for successful room creation: the code was unique, the
key was fresh, and the result is exactly the new item appended to the
table. -/
theorem createRoom_ok_inv (st : Store) (hostId : String) (cs : Option SettingsOverride)
    (roomId : String) (rand : Fin 6 → Fin 32) (createdAt : String) (nowSec : Nat)
    (room : Room) (st2 : Store)
    (h : createRoom st hostId cs roomId rand createdAt nowSec = .ok (room, st2)) :
    validateRoomCodeUnique st (generateRoomCode rand) = .ok () ∧
    lookupRoom st roomId = none ∧
    room = convertToRoom (newRoomItem hostId cs roomId rand createdAt nowSec) ∧
    st2 = st ++ [newRoomItem hostId cs roomId rand createdAt nowSec] := by
  unfold createRoom at h
  by_cases hg : hostId = "" ∨ (jsTrim hostId).length = 0
  · rw [if_pos hg] at h
    exact absurd h (by simp)
  · rw [if_neg hg] at h
    cases hv : validateRoomCodeUnique st (generateRoomCode rand) with
    | error e => simp [hv] at h
    | ok u =>
      cases u
      simp only [hv] at h
      cases hl : lookupRoom st roomId with
      | some it => simp [hl] at h
      | none =>
        simp only [hl] at h
        cases h
        exact ⟨rfl, rfl, rfl, rfl⟩

/-- Claim C2 counterexample: the store holds an active room whose code
is exactly the one the six draws produce; `createRoom` does not retry
with a fresh code but fails with 409 `ROOM_CODE_EXISTS`. -/
theorem createRoom_retry_counterexample :
    itemActive.status = RoomStatus.active ∧
    itemActive.roomCode = generateRoomCode (fun _ => (9 : Fin 32)) ∧
    createRoom ([itemActive] : Store) "h2" none "r2" (fun _ => (9 : Fin 32)) "t2" 0 =
      .error (.commentia "Room code already exists" 409 "ROOM_CODE_EXISTS") := by decide

/-- Claim C2 (amended): when the uniqueness check finds the generated
code already used by an active room, `createRoom` fails with the 409
`ROOM_CODE_EXISTS` conflict instead of retrying code generation. -/
theorem createRoom_code_conflict (st : Store) (hostId : String) (cs : Option SettingsOverride)
    (roomId : String) (rand : Fin 6 → Fin 32) (createdAt : String) (nowSec : Nat)
    (hhost : (jsTrim hostId).length ≠ 0)
    (hdup : ∃ r ∈ st, r.roomCode = generateRoomCode rand ∧ r.status = RoomStatus.active) :
    createRoom st hostId cs roomId rand createdAt nowSec =
      .error (.commentia "Room code already exists" 409 "ROOM_CODE_EXISTS") := by
  have hg : ¬(hostId = "" ∨ (jsTrim hostId).length = 0) := by
    rintro (he | hl)
    · subst he
      exact hhost (by decide)
    · exact hhost hl
  unfold createRoom
  rw [if_neg hg,
    validateRoomCodeUnique_eq_conflict st _ (generateRoomCode_length rand)
      (by rw [jsToUpper_generateRoomCode]; exact hdup)]

/-- Claim C2 witness: a concrete instantiation of the amended claim. -/
theorem createRoom_code_conflict_witness :
    createRoom ([itemActive] : Store) "hostX" none "r9" (fun _ => (9 : Fin 32)) "tX" 5 =
      .error (.commentia "Room code already exists" 409 "ROOM_CODE_EXISTS") :=
  createRoom_code_conflict [itemActive] "hostX" none "r9" (fun _ => (9 : Fin 32)) "tX" 5
    (by decide) ⟨itemActive, by decide, by decide, by decide⟩

/-- Claim C7: `createRoom` fails with a `ValidationError` whenever the
host id is empty or whitespace-only, and fails with the 409
`ROOM_EXISTS` conflict when the generated room id is already a key in
the table (and the code uniqueness check passed). -/
theorem createRoom_error_spec (st : Store) (hostId : String) (cs : Option SettingsOverride)
    (roomId : String) (rand : Fin 6 → Fin 32) (createdAt : String) (nowSec : Nat) :
    ((jsTrim hostId).length = 0 →
      createRoom st hostId cs roomId rand createdAt nowSec =
        .error (.validation "Host ID is required")) ∧
    ((jsTrim hostId).length ≠ 0 →
      (∀ r ∈ st, ¬(r.roomCode = generateRoomCode rand ∧ r.status = RoomStatus.active)) →
      (∃ it ∈ st, it.roomId = roomId) →
      createRoom st hostId cs roomId rand createdAt nowSec =
        .error (.commentia "Room already exists" 409 "ROOM_EXISTS")) := by
  constructor
  · intro h0
    unfold createRoom
    rw [if_pos (Or.inr h0)]
  · intro h0 hnone hex
    have hg : ¬(hostId = "" ∨ (jsTrim hostId).length = 0) := by
      rintro (he | hl)
      · subst he
        exact h0 (by decide)
      · exact h0 hl
    unfold createRoom
    rw [if_neg hg,
      validateRoomCodeUnique_eq_ok st _ (generateRoomCode_length rand)
        (by intro r hr; rw [jsToUpper_generateRoomCode]; exact hnone r hr)]
    obtain ⟨it, hit, hid⟩ := hex
    have hl2 : (lookupRoom st roomId).isSome := by
      rw [lookupRoom, List.find?_isSome]
      exact ⟨it, hit, by simp [idMatch, hid]⟩
    obtain ⟨u, hu⟩ := Option.isSome_iff_exists.mp hl2
    rw [hu]

/-- Claim C7 witness: a whitespace-only host id is rejected, and a
fresh code colliding on an existing room id yields `ROOM_EXISTS`. -/
theorem createRoom_error_spec_witness :
    createRoom ([] : Store) "   " none "r1" (fun _ => (9 : Fin 32)) "t0" 0 =
      .error (.validation "Host ID is required") ∧
    createRoom ([itemActive] : Store) "h2" none "r1" (fun _ => (0 : Fin 32)) "t2" 0 =
      .error (.commentia "Room already exists" 409 "ROOM_EXISTS") :=
  ⟨(createRoom_error_spec [] "   " none "r1" (fun _ => (9 : Fin 32)) "t0" 0).1 (by decide),
   (createRoom_error_spec [itemActive] "h2" none "r1" (fun _ => (0 : Fin 32)) "t2" 0).2
     (by decide) (by decide) ⟨itemActive, by decide, by decide⟩⟩

/-- Claim C3: every room returned by a successful `createRoom` has a
6-character code drawn from the 32-symbol alphabet, and the code
differs from the code of every room that was active in the store at
creation time. -/
theorem createRoom_roomCode_spec (st : Store) (hostId : String) (cs : Option SettingsOverride)
    (roomId : String) (rand : Fin 6 → Fin 32) (createdAt : String) (nowSec : Nat)
    (room : Room) (st2 : Store)
    (h : createRoom st hostId cs roomId rand createdAt nowSec = .ok (room, st2)) :
    room.roomCode.length = 6 ∧
    (∀ c ∈ room.roomCode.data, c ∈ roomCodeChars) ∧
    (∀ r ∈ st, r.status = RoomStatus.active → r.roomCode ≠ room.roomCode) := by
  obtain ⟨hv, -, hroom, -⟩ :=
    createRoom_ok_inv st hostId cs roomId rand createdAt nowSec room st2 h
  subst hroom
  refine ⟨generateRoomCode_length rand, generateRoomCode_mem rand, ?_⟩
  intro r hr ha hcontra
  apply validateRoomCodeUnique_ok_inv st _ hv r hr
  rw [jsToUpper_generateRoomCode]
  exact ⟨hcontra, ha⟩

/-- Claim C3 witness: a concrete successful creation next to an
existing active room with a different code. -/
theorem createRoom_roomCode_spec_witness :
    (convertToRoom (newRoomItem "h1" none "r9" (fun _ => (9 : Fin 32)) "t0" 0)).roomCode.length
      = 6 ∧
    (∀ c ∈ (convertToRoom (newRoomItem "h1" none "r9" (fun _ => (9 : Fin 32)) "t0" 0)).roomCode.data,
      c ∈ roomCodeChars) ∧
    (∀ r ∈ ([itemOther] : Store), r.status = RoomStatus.active →
      r.roomCode ≠ (convertToRoom (newRoomItem "h1" none "r9" (fun _ => (9 : Fin 32)) "t0" 0)).roomCode) :=
  createRoom_roomCode_spec [itemOther] "h1" none "r9" (fun _ => (9 : Fin 32)) "t0" 0
    (convertToRoom (newRoomItem "h1" none "r9" (fun _ => (9 : Fin 32)) "t0" 0))
    (itemOther :: [newRoomItem "h1" none "r9" (fun _ => (9 : Fin 32)) "t0" 0])
    (by decide)

/-- Claim C9: with no settings override a created room carries exactly
the defaults `{50, 100, 500}`; with an override each supplied field
replaces the default and each omitted field keeps it, both on the
returned room and on the stored item. -/
theorem createRoom_settings_spec (st : Store) (hostId roomId : String)
    (rand : Fin 6 → Fin 32) (createdAt : String) (nowSec : Nat) :
    (∀ room st2, createRoom st hostId none roomId rand createdAt nowSec = .ok (room, st2) →
      room.settings =
        { maxCommentsPerUser := 50, maxLikesPerUser := 100, commentMaxLength := 500 } ∧
      ∃ it ∈ st2, it.roomId = roomId ∧ it.settings = room.settings) ∧
    (∀ cs room st2,
      createRoom st hostId (some cs) roomId rand createdAt nowSec = .ok (room, st2) →
      room.settings.maxCommentsPerUser = cs.maxCommentsPerUser.getD 50 ∧
      room.settings.maxLikesPerUser = cs.maxLikesPerUser.getD 100 ∧
      room.settings.commentMaxLength = cs.commentMaxLength.getD 500 ∧
      ∃ it ∈ st2, it.roomId = roomId ∧ it.settings = room.settings) := by
  constructor
  · intro room st2 h
    obtain ⟨-, -, hroom, hst2⟩ :=
      createRoom_ok_inv st hostId none roomId rand createdAt nowSec room st2 h
    subst hroom
    subst hst2
    exact ⟨rfl, newRoomItem hostId none roomId rand createdAt nowSec,
      List.mem_append_right st (List.mem_singleton_self _), rfl, rfl⟩
  · intro cs room st2 h
    obtain ⟨-, -, hroom, hst2⟩ :=
      createRoom_ok_inv st hostId (some cs) roomId rand createdAt nowSec room st2 h
    subst hroom
    subst hst2
    exact ⟨rfl, rfl, rfl, newRoomItem hostId (some cs) roomId rand createdAt nowSec,
      List.mem_append_right st (List.mem_singleton_self _), rfl, rfl⟩

/-- Claim C9 witness: a creation without override carries the default
settings, and a partial override replaces only the supplied field. -/
theorem createRoom_settings_spec_witness :
    ((convertToRoom (newRoomItem "h1" none "r1" (fun _ => (9 : Fin 32)) "t0" 0)).settings =
        { maxCommentsPerUser := 50, maxLikesPerUser := 100, commentMaxLength := 500 } ∧
      ∃ it ∈ ([newRoomItem "h1" none "r1" (fun _ => (9 : Fin 32)) "t0" 0] : Store),
        it.roomId = "r1" ∧
        it.settings =
          (convertToRoom (newRoomItem "h1" none "r1" (fun _ => (9 : Fin 32)) "t0" 0)).settings) ∧
    ((convertToRoom (newRoomItem "h1"
          (some { maxLikesPerUser := some 7 }) "r1" (fun _ => (9 : Fin 32)) "t0" 0)).settings.maxCommentsPerUser =
        ({ maxLikesPerUser := some 7 } : SettingsOverride).maxCommentsPerUser.getD 50) :=
  ⟨(createRoom_settings_spec [] "h1" "r1" (fun _ => (9 : Fin 32)) "t0" 0).1
      (convertToRoom (newRoomItem "h1" none "r1" (fun _ => (9 : Fin 32)) "t0" 0))
      [newRoomItem "h1" none "r1" (fun _ => (9 : Fin 32)) "t0" 0]
      (by decide),
   ((createRoom_settings_spec [] "h1" "r1" (fun _ => (9 : Fin 32)) "t0" 0).2
      { maxLikesPerUser := some 7 }
      (convertToRoom (newRoomItem "h1"
        (some { maxLikesPerUser := some 7 }) "r1" (fun _ => (9 : Fin 32)) "t0" 0))
      [newRoomItem "h1" (some { maxLikesPerUser := some 7 }) "r1" (fun _ => (9 : Fin 32)) "t0" 0]
      (by decide)).1⟩

/-- Claim C5 witness: instantiating the amended specification on
concrete stores. -/
theorem getRoom_spec_witness :
    getRoom ([] : Store) "r1" = .error (.notFound "Room") ∧
    getRoom ([itemShut] : Store) "r1" =
      .error (.commentia "Room is closed" 410 "ROOM_CLOSED") ∧
    getRoom ([itemActive] : Store) "r1" = .ok (convertToRoom itemActive) ∧
    (convertToRoom itemActive).status ≠ RoomStatus.closed :=
  ⟨((getRoom_spec [] "r1").1 (by decide)).1 (by decide),
   ((getRoom_spec [itemShut] "r1").1 (by decide)).2.1 itemShut (by decide) (by decide),
   ((getRoom_spec [itemActive] "r1").1 (by decide)).2.2 itemActive (by decide) (by decide),
   (getRoom_spec [itemActive] "r1").2 (convertToRoom itemActive)
     (((getRoom_spec [itemActive] "r1").1 (by decide)).2.2 itemActive (by decide) (by decide))⟩

/-- Claim C1 counterexample: on an already-closed room the close
operation fails with 410 `ROOM_CLOSED` (Gone) even when the requester
is not the host — neither the predicted `Forbidden` nor the predicted
`Conflict` — and an absent room queried with an empty id fails with a
`ValidationError`, not `NotFound`. -/
theorem closeRoom_conflict_counterexample :
    itemShut.status = RoomStatus.closed ∧
    itemShut.hostId ≠ "h9" ∧
    closeRoom ([itemShut] : Store) "r1" "h9" "t2" =
      .error (.commentia "Room is closed" 410 "ROOM_CLOSED") ∧
    closeRoom ([] : Store) "" "h1" "t2" =
      .error (.validation "Room ID is required") := by decide

/-- Claim C1 (amended): for nonempty `roomId` and `requesterId`,
`closeRoom` fails with `NotFound` when the room is absent, with `Gone`
(410 `ROOM_CLOSED`) when the room is already closed — this check,
inherited from `getRoom`, precedes the host check, so the dedicated
`Conflict` branch is unreachable — and with `Forbidden` when the room
is active and the requester is not the host. -/
theorem closeRoom_spec (st : Store) (roomId requesterId closedAt : String)
    (h1 : roomId ≠ "") (h2 : requesterId ≠ "") :
    (lookupRoom st roomId = none →
      closeRoom st roomId requesterId closedAt = .error (.notFound "Room")) ∧
    (∀ it, lookupRoom st roomId = some it → it.status = RoomStatus.closed →
      closeRoom st roomId requesterId closedAt =
        .error (.commentia "Room is closed" 410 "ROOM_CLOSED")) ∧
    (∀ it, lookupRoom st roomId = some it → it.status = RoomStatus.active →
      it.hostId ≠ requesterId →
      closeRoom st roomId requesterId closedAt =
        .error (.commentia "Only room host can close the room" 403 "FORBIDDEN")) :=
  ⟨closeRoom_eq_notFound st roomId requesterId closedAt h1 h2,
   fun it hl hc => closeRoom_eq_gone st roomId requesterId closedAt it h1 h2 hl hc,
   fun it hl ha hh => closeRoom_eq_forbidden st roomId requesterId closedAt it h1 h2 hl ha hh⟩

/-- Claim C1 witness: the three failure modes of the amended claim on
concrete stores. -/
theorem closeRoom_spec_witness :
    closeRoom ([] : Store) "r1" "h1" "t2" = .error (.notFound "Room") ∧
    closeRoom ([itemShut] : Store) "r1" "h1" "t2" =
      .error (.commentia "Room is closed" 410 "ROOM_CLOSED") ∧
    closeRoom ([itemActive] : Store) "r1" "h9" "t2" =
      .error (.commentia "Only room host can close the room" 403 "FORBIDDEN") :=
  ⟨(closeRoom_spec [] "r1" "h1" "t2" (by decide) (by decide)).1 (by decide),
   (closeRoom_spec [itemShut] "r1" "h1" "t2" (by decide) (by decide)).2.1 itemShut
     (by decide) (by decide),
   (closeRoom_spec [itemActive] "r1" "h9" "t2" (by decide) (by decide)).2.2 itemActive
     (by decide) (by decide) (by decide)⟩

/-- Claim C10: a successful close rewrites only the target record, and
there only the `status` and `closedAt` fields; every other field of the
target and every other record are unchanged, and no record is added or
removed. -/
theorem closeRoom_frame (st : Store) (roomId hostId closedAt : String) (st2 : Store)
    (h : closeRoom st roomId hostId closedAt = .ok st2) :
    st2.length = st.length ∧
    ∀ (i : Nat) (r : RoomItem), st[i]? = some r → ∃ r2, st2[i]? = some r2 ∧
      r2.roomId = r.roomId ∧ r2.roomCode = r.roomCode ∧ r2.hostId = r.hostId ∧
      r2.createdAt = r.createdAt ∧ r2.settings = r.settings ∧ r2.ttl = r.ttl ∧
      (r.roomId ≠ roomId → r2 = r) ∧
      (r.roomId = roomId →
        r2.status = RoomStatus.closed ∧ r2.closedAt = some closedAt) := by
  obtain ⟨-, hst2⟩ := closeRoom_ok_inv st roomId hostId closedAt st2 h
  subst hst2
  refine ⟨List.length_map st _, ?_⟩
  intro i r hr
  refine ⟨closeUpdate roomId closedAt r, ?_, ?_⟩
  · rw [List.getElem?_map, hr]
    rfl
  · by_cases hid : r.roomId = roomId
    · simp [closeUpdate, hid]
    · simp [closeUpdate, hid]

/-- Claim C10 witness: closing one of two rooms updates exactly the
target record and leaves the other record untouched. -/
theorem closeRoom_frame_witness :
    ([itemShut, itemOther] : Store).length = ([itemActive, itemOther] : Store).length ∧
    ∀ (i : Nat) (r : RoomItem), ([itemActive, itemOther] : Store)[i]? = some r →
      ∃ r2, ([itemShut, itemOther] : Store)[i]? = some r2 ∧
        r2.roomId = r.roomId ∧ r2.roomCode = r.roomCode ∧ r2.hostId = r.hostId ∧
        r2.createdAt = r.createdAt ∧ r2.settings = r.settings ∧ r2.ttl = r.ttl ∧
        (r.roomId ≠ "r1" → r2 = r) ∧
        (r.roomId = "r1" →
          r2.status = RoomStatus.closed ∧ r2.closedAt = some "t1") :=
  closeRoom_frame [itemActive, itemOther] "r1" "h1" "t1" [itemShut, itemOther] (by decide)

/-- One service call moves the status stored under a given id in at
most one way: unchanged, newly created as `active`, or closed from
`active`. -/
theorem step_statusOf_cases (st : Store) (op : Op) (roomId : String) :
    statusOf (step st op) roomId = statusOf st roomId ∨
    (statusOf st roomId = none ∧
      statusOf (step st op) roomId = some RoomStatus.active) ∨
    (statusOf st roomId = some RoomStatus.active ∧
      statusOf (step st op) roomId = some RoomStatus.closed) := by
  by_cases hne : statusOf (step st op) roomId = statusOf st roomId
  · exact Or.inl hne
  · refine Or.inr ?_
    cases op with
    | get q => exact absurd rfl hne
    | getByCode q => exact absurd rfl hne
    | create hostId cs roomId2 rand createdAt nowSec =>
      cases hc : createRoom st hostId cs roomId2 rand createdAt nowSec with
      | error e =>
        exfalso
        apply hne
        show statusOf (match createRoom st hostId cs roomId2 rand createdAt nowSec with
          | .ok (_, st3) => st3
          | .error _ => st) roomId = statusOf st roomId
        rw [hc]
      | ok p =>
        obtain ⟨room, st2⟩ := p
        obtain ⟨-, hlnone, -, hst2⟩ :=
          createRoom_ok_inv st hostId cs roomId2 rand createdAt nowSec room st2 hc
        have hstep : step st (.create hostId cs roomId2 rand createdAt nowSec) = st2 := by
          show (match createRoom st hostId cs roomId2 rand createdAt nowSec with
            | .ok (_, st3) => st3
            | .error _ => st) = st2
          rw [hc]
        subst hst2
        cases hf : lookupRoom st roomId with
        | some r =>
          exfalso
          apply hne
          rw [hstep, statusOf_append]
          unfold statusOf
          rw [hf]
          rfl
        | none =>
          by_cases hid : (newRoomItem hostId cs roomId2 rand createdAt nowSec).roomId = roomId
          · left
            constructor
            · unfold statusOf
              rw [hf]
              rfl
            · rw [hstep, statusOf_append, hf, if_pos hid]
              rfl
          · exfalso
            apply hne
            rw [hstep, statusOf_append]
            unfold statusOf
            rw [hf]
            simp [hid]
    | close roomId2 hostId2 closedAt2 =>
      cases hc : closeRoom st roomId2 hostId2 closedAt2 with
      | error e =>
        exfalso
        apply hne
        show statusOf (match closeRoom st roomId2 hostId2 closedAt2 with
          | .ok st3 => st3
          | .error _ => st) roomId = statusOf st roomId
        rw [hc]
      | ok st2 =>
        obtain ⟨⟨it, hl, ha, -⟩, hst2⟩ :=
          closeRoom_ok_inv st roomId2 hostId2 closedAt2 st2 hc
        have hstep : step st (.close roomId2 hostId2 closedAt2) = st2 := by
          show (match closeRoom st roomId2 hostId2 closedAt2 with
            | .ok st3 => st3
            | .error _ => st) = st2
          rw [hc]
        subst hst2
        cases hf : lookupRoom st roomId with
        | none =>
          exfalso
          apply hne
          rw [hstep, statusOf_map_closeUpdate]
          unfold statusOf
          rw [hf]
          rfl
        | some r =>
          by_cases hid : r.roomId = roomId2
          · right
            have hq : roomId = roomId2 := by
              rw [← lookupRoom_mem_key st roomId r hf, hid]
            subst hq
            have hit : r = it := by
              rw [hf] at hl
              exact Option.some.inj hl
            subst hit
            constructor
            · unfold statusOf
              rw [hf]
              simp [ha]
            · rw [hstep, statusOf_map_closeUpdate, hf]
              simp [closeUpdate, hid]
          · exfalso
            apply hne
            rw [hstep, statusOf_map_closeUpdate]
            unfold statusOf
            rw [hf]
            simp [closeUpdate, hid]

/-- A closed room stays closed across any single service call. -/
theorem closed_step (st : Store) (op : Op) (roomId : String)
    (h : statusOf st roomId = some RoomStatus.closed) :
    statusOf (step st op) roomId = some RoomStatus.closed := by
  rcases step_statusOf_cases st op roomId with heq | ⟨h1, -⟩ | ⟨h1, -⟩
  · rw [heq, h]
  · rw [h] at h1
    cases h1
  · rw [h] at h1
    cases Option.some.inj h1

/-- A closed room stays closed across any sequence of service calls. -/
theorem closed_foldl (ops : List Op) : ∀ (st : Store) (roomId : String),
    statusOf st roomId = some RoomStatus.closed →
    statusOf (List.foldl step st ops) roomId = some RoomStatus.closed := by
  induction ops with
  | nil => intro st roomId h; exact h
  | cons op rest ih =>
    intro st roomId h
    exact ih (step st op) roomId (closed_step st op roomId h)

/-- Claim C4: room status is one-way.  A created room is stored (and
returned) with status `active`; a single call changes a stored status
only by closing an active room; non-close operations preserve every
stored status; and no sequence of service calls ever takes a status
from `closed` back to `active` (it stays `closed`). -/
theorem roomStatus_transitions (st : Store) (op : Op) (roomId : String) :
    (statusOf (step st op) roomId ≠ statusOf st roomId →
      (statusOf st roomId = none ∧
        statusOf (step st op) roomId = some RoomStatus.active) ∨
      (statusOf st roomId = some RoomStatus.active ∧
        statusOf (step st op) roomId = some RoomStatus.closed)) ∧
    (op.isClose = false →
      ∀ s, statusOf st roomId = some s → statusOf (step st op) roomId = some s) ∧
    (∀ hostId cs roomId2 rand createdAt nowSec room st2,
      createRoom st hostId cs roomId2 rand createdAt nowSec = .ok (room, st2) →
      room.status = RoomStatus.active ∧ statusOf st2 roomId2 = some RoomStatus.active) ∧
    (∀ ops : List Op, statusOf st roomId = some RoomStatus.closed →
      statusOf (List.foldl step st ops) roomId = some RoomStatus.closed) := by
  have persist : ∀ hostId cs roomId2 rand createdAt nowSec room st2,
      createRoom st hostId cs roomId2 rand createdAt nowSec = .ok (room, st2) →
      room.status = RoomStatus.active ∧ statusOf st2 roomId2 = some RoomStatus.active := by
    intro hostId cs roomId2 rand createdAt nowSec room st2 h
    obtain ⟨-, hlnone, hroom, hst2⟩ :=
      createRoom_ok_inv st hostId cs roomId2 rand createdAt nowSec room st2 h
    subst hroom
    subst hst2
    refine ⟨rfl, ?_⟩
    rw [statusOf_append, hlnone]
    simp [newRoomItem]
  refine ⟨?_, ?_, persist, fun ops h => closed_foldl ops st roomId h⟩
  · intro hne
    rcases step_statusOf_cases st op roomId with heq | hcase | hcase
    · exact absurd heq hne
    · exact Or.inl hcase
    · exact Or.inr hcase
  · intro hnc s hs
    cases op with
    | get q => exact hs
    | getByCode q => exact hs
    | close roomId2 hostId2 closedAt2 => cases hnc
    | create hostId cs roomId2 rand createdAt nowSec =>
      cases hc : createRoom st hostId cs roomId2 rand createdAt nowSec with
      | error e =>
        rw [show step st (.create hostId cs roomId2 rand createdAt nowSec) = st from by
          show (match createRoom st hostId cs roomId2 rand createdAt nowSec with
            | .ok (_, st3) => st3
            | .error _ => st) = st
          rw [hc]]
        exact hs
      | ok p =>
        obtain ⟨room, st2⟩ := p
        obtain ⟨-, -, -, hst2⟩ :=
          createRoom_ok_inv st hostId cs roomId2 rand createdAt nowSec room st2 hc
        rw [show step st (.create hostId cs roomId2 rand createdAt nowSec) = st2 from by
          show (match createRoom st hostId cs roomId2 rand createdAt nowSec with
            | .ok (_, st3) => st3
            | .error _ => st) = st2
          rw [hc]]
        subst hst2
        rw [statusOf_append]
        unfold statusOf at hs
        cases hf : lookupRoom st roomId with
        | none =>
          rw [hf] at hs
          simp at hs
        | some r =>
          rw [hf] at hs
          simpa using hs

/-- Claim C4 witness: creating a room takes its status from absent to
active, a read preserves a stored status, and a concrete successful
creation stores status `active`. -/
theorem roomStatus_transitions_witness :
    ((statusOf ([] : Store) "r1" = none ∧
      statusOf (step ([] : Store)
        (.create "h1" none "r1" (fun _ => (9 : Fin 32)) "t0" 0)) "r1" =
          some RoomStatus.active) ∨
     (statusOf ([] : Store) "r1" = some RoomStatus.active ∧
      statusOf (step ([] : Store)
        (.create "h1" none "r1" (fun _ => (9 : Fin 32)) "t0" 0)) "r1" =
          some RoomStatus.closed)) ∧
    statusOf (step ([itemActive] : Store) (.get "z")) "r1" = some RoomStatus.active ∧
    ((convertToRoom (newRoomItem "h1" none "r1" (fun _ => (9 : Fin 32)) "t0" 0)).status =
        RoomStatus.active ∧
      statusOf ([newRoomItem "h1" none "r1" (fun _ => (9 : Fin 32)) "t0" 0] : Store) "r1" =
        some RoomStatus.active) ∧
    statusOf (List.foldl step ([itemShut] : Store)
      [.close "r1" "h1" "t3", .get "r1",
       .create "h2" none "r1" (fun _ => (0 : Fin 32)) "t4" 0]) "r1" =
      some RoomStatus.closed :=
  ⟨(roomStatus_transitions [] (.create "h1" none "r1" (fun _ => (9 : Fin 32)) "t0" 0) "r1").1
      (by decide),
   (roomStatus_transitions [itemActive] (.get "z") "r1").2.1 (by decide) RoomStatus.active
      (by decide),
   (roomStatus_transitions [] (.create "h1" none "r1" (fun _ => (9 : Fin 32)) "t0" 0) "r1").2.2.1
      "h1" none "r1" (fun _ => (9 : Fin 32)) "t0" 0
      (convertToRoom (newRoomItem "h1" none "r1" (fun _ => (9 : Fin 32)) "t0" 0))
      [newRoomItem "h1" none "r1" (fun _ => (9 : Fin 32)) "t0" 0]
      (by decide),
   (roomStatus_transitions [itemShut] (.get "z") "r1").2.2.2
      [.close "r1" "h1" "t3", .get "r1",
       .create "h2" none "r1" (fun _ => (0 : Fin 32)) "t4" 0]
      (by decide)⟩


end Commentia
